import Mathlib

/-!
Verification of the UniSupportSystem backend (multi-agent conversational
router).  This file gives a shallow embedding, in Lean, of the Python code in
`backend/`:

* `backend/utils/embedding_utils.py` — `similarity_search` and
  `EmbeddingIndex.search` (the cosine-similarity values themselves come from
  an external sentence-transformer model and sklearn; they are abstracted as
  an arbitrary rational score per stored vector, which is exactly the data
  the pure selection logic consumes),
* `backend/tools/course_tools.py` — the catalog data and `recommend_courses`,
* `backend/tools/schedule_tools.py` — `check_enrollment_status`,
* `backend/swarm_client/client.py` — `get_agent_by_name`,
  `get_agent_display_name` and `process_query` (the LLM is an oracle:
  a function from agent definition and message list to either a reply
  message list or a raised exception, modelled with `Except`),
* `backend/chat_system/views.py` — the per-turn session update of
  `chat_endpoint` (persistence of messages and of the current-agent pointer)
  and `clear_chat`.

Python strings are Lean `String`s; Python `None` is `Option.none`; Python
`in` on strings is `pyContains`; a Python function that can raise returns
`Except String _`.  All definitions are executable.
-/

namespace UniSupport

/-! ### Python string primitives -/

/-- `pyStartsWith needle hay` is true when the char list `needle` is an
initial segment of `hay` (helper for substring search). -/
def pyStartsWith : List Char → List Char → Bool
  | [], _ => true
  | _ :: _, [] => false
  | a :: as, b :: bs => a == b && pyStartsWith as bs

/-- Occurrence of `needle` anywhere in `hay` (helper for `pyContains`). -/
def pyContainsAux (needle : List Char) : List Char → Bool
  | [] => needle.isEmpty
  | hay@(_ :: rest) => pyStartsWith needle hay || pyContainsAux needle rest

/-- Python `needle in hay` on strings: substring containment (the empty
needle is contained in every string, as in Python). -/
def pyContains (hay needle : String) : Bool :=
  pyContainsAux needle.data hay.data

/-- Index of the first occurrence of `needle` in `hay`, if any. -/
def findSubIdx (needle : List Char) : List Char → Option Nat
  | [] => if needle.isEmpty then some 0 else none
  | hay@(_ :: rest) =>
    if pyStartsWith needle hay then some 0
    else (findSubIdx needle rest).map (· + 1)

/-- Python `str.lower()` (the strings scanned by this code base are ASCII,
where `Char.toLower` agrees with Python). -/
def pyLower (s : String) : String := ⟨s.data.map Char.toLower⟩

/-- Python `str.upper()` (ASCII). -/
def pyUpper (s : String) : String := ⟨s.data.map Char.toUpper⟩

/-- Python list slice `l[:k]` for an `int` bound `k`:  a non-negative bound
takes a prefix, a negative bound drops `|k|` elements from the end. -/
def pyTakeInt {α : Type} (l : List α) (k : Int) : List α :=
  if 0 ≤ k then l.take k.toNat else l.take (l.length - (-k).toNat)

/-! ### `embedding_utils.similarity_search`

`similarity_search(query, items, embeddings, top_k, threshold)` embeds the
query, computes `similarity_scores = cosine_similarity([query_embedding],
embeddings)[0]` — one rational score per stored vector, abstracted here as
the input list `scores` — then visits indices in order of decreasing score
and collects pairs while the score clears the threshold and fewer than
`top_k` results have been collected.

`numpy.argsort` sorts ascending; on the small arrays this code base ever
builds (15 courses) numpy uses its stable insertion sort, modelled by
`List.insertionSort`, and the code reverses the result with `[::-1]`.

`sklearn.metrics.pairwise.cosine_similarity` raises a `ValueError` when the
stored embedding array is empty (`check_array` rejects `np.array([])`), so
the search is a fallible function: `scores` is empty exactly when the
collection holds zero vectors. -/

/-- Indices `0, …, scores.length - 1` stably sorted by ascending score:
the model of `similarity_scores.argsort()`. -/
def argsortAsc (scores : List ℚ) : List Nat :=
  List.insertionSort (fun i j => scores.getD i 0 ≤ scores.getD j 0)
    (List.range scores.length)

/-- The result-collection loop of `similarity_search`, run over
`argsort()[::-1]`. -/
def simSelect {α : Type} [Inhabited α] (items : List α) (scores : List ℚ)
    (top_k : Nat) (threshold : ℚ) : List (α × ℚ) :=
  ((argsortAsc scores).reverse).foldl
    (fun results idx =>
      if threshold ≤ scores.getD idx 0 ∧ results.length < top_k then
        results ++ [(items.getD idx default, scores.getD idx 0)]
      else results)
    []

/-- `similarity_search`: raises (sklearn `ValueError`) when the collection
holds zero vectors, otherwise returns the selected `(item, score)` pairs. -/
def similarity_search {α : Type} [Inhabited α] (items : List α)
    (scores : List ℚ) (top_k : Nat) (threshold : ℚ) :
    Except String (List (α × ℚ)) :=
  if scores.isEmpty then
    Except.error "ValueError: Found array with 0 sample(s) in cosine_similarity"
  else
    Except.ok (simSelect items scores top_k threshold)

/-- `EmbeddingIndex`: the cached `(items, embeddings)` pair of a named
collection.  The embedding vectors are opaque; what `search` consumes is,
per query, the cosine score of the query against each stored vector, so the
state is modelled as the item list plus that score function (one score per
stored vector). -/
structure EmbeddingIndex (α : Type) where
  items : List α
  scoresFor : String → List ℚ

/-- `EmbeddingIndex.search(query, top_k, threshold)` delegates to
`similarity_search` on the cached items and vectors. -/
def EmbeddingIndex.search {α : Type} [Inhabited α] (idx : EmbeddingIndex α)
    (query : String) (top_k : Nat) (threshold : ℚ) :
    Except String (List (α × ℚ)) :=
  similarity_search idx.items (idx.scoresFor query) top_k threshold

/-! ### `course_tools` — catalog data and `recommend_courses`

The `COURSES` and `CAREER_PATHS` dictionaries are association lists here;
Python dicts preserve insertion order, which matters for the partial-match
loop `for career_path in CAREER_PATHS`. -/

/-- One entry of the `COURSES` dictionary. -/
structure Course where
  title : String
  description : String
  credits : Nat
  prerequisites : List String
  difficulty : String
  topics : List String
deriving DecidableEq, Inhabited

/-- The `COURSES` catalog of `course_tools.py`, in insertion order. -/
def COURSES : List (String × Course) :=
  [ ("CS101",
      { title := "Introduction to Computer Science",
        description := "Fundamentals of programming, algorithms, and computer systems",
        credits := 3, prerequisites := [], difficulty := "Beginner",
        topics := ["programming", "algorithms", "computer systems"] }),
    ("CS201",
      { title := "Data Structures",
        description := "Implementation and analysis of fundamental data structures",
        credits := 4, prerequisites := ["CS101"], difficulty := "Intermediate",
        topics := ["data structures", "algorithms", "efficiency"] }),
    ("DS200",
      { title := "Introduction to Data Science",
        description := "Foundations of data analysis, statistics, and machine learning",
        credits := 3, prerequisites := ["CS101", "MATH150"], difficulty := "Intermediate",
        topics := ["data analysis", "statistics", "machine learning"] }),
    ("MATH150",
      { title := "Calculus I",
        description := "Limits, derivatives, and integrals of single-variable functions",
        credits := 4, prerequisites := [], difficulty := "Intermediate",
        topics := ["calculus", "mathematics", "functions"] }),
    ("MATH250",
      { title := "Linear Algebra",
        description := "Vector spaces, matrices, and linear transformations",
        credits := 3, prerequisites := ["MATH150"], difficulty := "Intermediate",
        topics := ["linear algebra", "matrices", "mathematics"] }),
    ("ENG101",
      { title := "Academic Writing",
        description := "Principles of effective academic writing and communication",
        credits := 3, prerequisites := [], difficulty := "Beginner",
        topics := ["writing", "communication", "research"] }),
    ("BIO101",
      { title := "Introduction to Biology",
        description := "Fundamentals of biological systems and processes",
        credits := 4, prerequisites := [], difficulty := "Beginner",
        topics := ["biology", "life sciences", "cells"] }),
    ("PSYCH101",
      { title := "Introduction to Psychology",
        description := "Survey of basic principles in psychology and behavior",
        credits := 3, prerequisites := [], difficulty := "Beginner",
        topics := ["psychology", "behavior", "mental processes"] }),
    ("AI400",
      { title := "Advanced Machine Learning",
        description := "Advanced techniques in machine learning and artificial intelligence",
        credits := 4, prerequisites := ["CS201", "DS200", "MATH250"], difficulty := "Advanced",
        topics := ["machine learning", "artificial intelligence", "neural networks"] }),
    ("CS300",
      { title := "Database Systems",
        description := "Design and implementation of database management systems",
        credits := 3, prerequisites := ["CS201"], difficulty := "Intermediate",
        topics := ["databases", "SQL", "data modeling"] }),
    ("FIN201",
      { title := "Introduction to Finance",
        description := "Principles of financial management, investment analysis, and capital markets",
        credits := 3, prerequisites := ["MATH150"], difficulty := "Intermediate",
        topics := ["finance", "investment", "capital markets"] }),
    ("FIN301",
      { title := "Corporate Finance",
        description := "Analysis of financial decision-making within the firm and its impact on shareholders",
        credits := 3, prerequisites := ["FIN201"], difficulty := "Advanced",
        topics := ["finance", "corporate strategy", "valuation"] }),
    ("BUS101",
      { title := "Introduction to Business",
        description := "Overview of business principles, management, marketing, and economics",
        credits := 3, prerequisites := [], difficulty := "Beginner",
        topics := ["business", "management", "marketing"] }),
    ("BUS220",
      { title := "Business Analytics",
        description := "Application of data analysis techniques to business decision-making",
        credits := 3, prerequisites := ["BUS101", "MATH150"], difficulty := "Intermediate",
        topics := ["business", "analytics", "decision-making"] }),
    ("ECON101",
      { title := "Principles of Economics",
        description := "Introduction to micro and macroeconomic principles and policies",
        credits := 3, prerequisites := [], difficulty := "Beginner",
        topics := ["economics", "markets", "policy"] }) ]

/-- The `CAREER_PATHS` dictionary of `course_tools.py`, in insertion order. -/
def CAREER_PATHS : List (String × List String) :=
  [ ("data science", ["CS101", "MATH150", "DS200", "MATH250", "AI400"]),
    ("software engineering", ["CS101", "CS201", "MATH150", "CS300"]),
    ("research", ["CS101", "MATH150", "MATH250", "BIO101", "ENG101"]),
    ("business analytics", ["BUS220", "CS101", "DS200", "MATH150", "BUS101"]),
    ("psychology", ["PSYCH101", "BIO101", "ENG101", "DS200"]),
    ("finance", ["FIN201", "FIN301", "ECON101", "MATH150", "BUS101"]),
    ("business", ["BUS101", "ECON101", "ENG101", "BUS220"]),
    ("economics", ["ECON101", "MATH150", "DS200", "FIN201"]) ]

/-- The per-course line appended by the exact- and partial-match loops of
`recommend_courses`. -/
def courseLine (code : String) (c : Course) : String :=
  "- " ++ code ++ ": " ++ c.title ++ "\n  " ++ c.description ++
    "\n  Difficulty: " ++ c.difficulty ++ ", Credits: " ++ toString c.credits ++ "\n\n"

/-- The `for code in recommended: if code in COURSES: result += …` loop. -/
def renderCourseList (codes : List String) : String :=
  codes.foldl
    (fun acc code =>
      match COURSES.lookup code with
      | some c => acc ++ courseLine code c
      | none => acc)
    ""

/-- One `(item, score)` pair returned by the semantic course search: the
stored item carries the course code and the course record, and the
similarity score enters the rendered text only through its Python
`f"{score:.2f}"` formatting, kept here as the pre-formatted `scoreStr`. -/
structure SemHit where
  code : String
  course : Course
  scoreStr : String
deriving DecidableEq

/-- The per-hit line of the semantic branch of `recommend_courses`
(`interest` is already lower-cased by the caller). -/
def renderSemHit (interest : String) (h : SemHit) : String :=
  if pyContains (pyLower interest) "bio" ∧ h.code = "BIO101" then
    "- " ++ h.code ++ ": " ++ h.course.title ++ " (BIOLOGY course, match score: " ++
      h.scoreStr ++ ")\n  " ++ h.course.description ++ "\n  Difficulty: " ++
      h.course.difficulty ++ ", Credits: " ++ toString h.course.credits ++ "\n\n"
  else
    "- " ++ h.code ++ ": " ++ h.course.title ++ " (match: " ++ h.scoreStr ++ ")\n  " ++
      h.course.description ++ "\n  Difficulty: " ++ h.course.difficulty ++
      ", Credits: " ++ toString h.course.credits ++ "\n\n"

/-- The partial-match test of `recommend_courses`: `interest.lower() in
career_path.lower() or career_path.lower() in interest.lower()` (both
strings are already lower-case at this point; the source lowers them
again, mirrored here). -/
def partialMatch (interest : String) (career_path : String) : Bool :=
  pyContains (pyLower career_path) (pyLower interest) ||
    pyContains (pyLower interest) (pyLower career_path)

/-- `recommend_courses(interest, count)`.  The embedding-backed course index
`_get_course_index().search(query=interest, top_k=count, threshold=0.3)` is
an external oracle (sentence-transformer model), passed in as `sem`. -/
def recommend_courses (sem : String → Int → List SemHit)
    (interest0 : String) (count : Int) : String :=
  let interest := pyLower interest0
  match CAREER_PATHS.lookup interest with
  | some path_courses =>
      "Based on your interest in " ++ interest ++
        ", here are some recommended courses:\n\n" ++
        renderCourseList (pyTakeInt path_courses count)
  | none =>
    match CAREER_PATHS.find? (fun p => partialMatch interest p.1) with
    | some p =>
        "Based on your interest in " ++ interest ++
          ", here are some recommended courses related to " ++ p.1 ++ ":\n\n" ++
          renderCourseList (pyTakeInt p.2 count)
    | none =>
      let search_results := sem interest count
      if search_results.isEmpty then
        "I couldn\x27t find specific courses for \x27" ++ interest ++
          "\x27. Would you like recommendations for popular areas like data science, programming, or mathematics instead?"
      else
        (if pyContains (pyLower interest) "bio" then
          "Based on your interest in BIOLOGY, here are some recommended courses:\n\n"
        else
          "Based on your interest in " ++ pyUpper interest ++
            ", here are some recommended courses:\n\n") ++
          search_results.foldl (fun acc h => acc ++ renderSemHit interest h) ""

/-- The result `recommend_courses` produces when a higher-confidence tier
(exact career-path key match, else first partial/substring match) hits —
defined without any reference to the semantic search. `none` when neither
tier matches. -/
def higherTierResult (interest0 : String) (count : Int) : Option String :=
  let interest := pyLower interest0
  match CAREER_PATHS.lookup interest with
  | some path_courses =>
      some ("Based on your interest in " ++ interest ++
        ", here are some recommended courses:\n\n" ++
        renderCourseList (pyTakeInt path_courses count))
  | none =>
    match CAREER_PATHS.find? (fun p => partialMatch interest p.1) with
    | some p =>
        some ("Based on your interest in " ++ interest ++
          ", here are some recommended courses related to " ++ p.1 ++ ":\n\n" ++
          renderCourseList (pyTakeInt p.2 count))
    | none => none

/-! ### `schedule_tools.check_enrollment_status` -/

/-- The `status` and `financial_aid` strings chosen by the `if/elif` chain of
`check_enrollment_status`. -/
def enrollmentStatusClassify (credit_hours : Int) : String × String :=
  if credit_hours < 6 then
    ("Less than half-time",
     "Limited eligibility for financial aid. Most loans and scholarships require at least half-time enrollment.")
  else if credit_hours < 9 then
    ("Half-time",
     "Eligible for some financial aid options, including some federal loans. Not eligible for full financial aid packages.")
  else if credit_hours < 12 then
    ("Three-quarter time",
     "Eligible for many financial aid options, but not considered full-time for some scholarships and grants.")
  else
    ("Full-time",
     "Eligible for full financial aid consideration, including maximum loan amounts, scholarships, and grants.")

/-- The value held by the local variable `result` when the body of
`check_enrollment_status` reaches its final statement. -/
def enrollmentStatusText (credit_hours : Int) : String :=
  let sc := enrollmentStatusClassify credit_hours
  let base :=
    "Enrollment status for " ++ toString credit_hours ++ " credit hours: " ++ sc.1 ++
      "\n\n" ++ "Status implications:\n" ++ "- Financial aid: " ++ sc.2 ++ "\n"
  if sc.1 = "Full-time" then
    base ++ "- Housing: Eligible for on-campus housing priority.\n" ++
      "- Athletics: Meets NCAA eligibility requirements.\n" ++
      "- International students: Meets F-1/J-1 visa requirements.\n"
  else
    base ++ "- Housing: May affect eligibility for certain on-campus housing options.\n" ++
      (if sc.1 = "Less than half-time" then
        "- Athletics: Does not meet NCAA eligibility requirements.\n" ++
          "- International students: Does not meet F-1/J-1 visa requirements.\n"
      else
        "- Athletics: May not meet NCAA eligibility requirements. Consult with athletic department.\n" ++
          "- International students: Does not meet F-1/J-1 visa requirements.\n")

/-- `check_enrollment_status(context_variables, credit_hours)`: the body
computes the classification and builds `result`, but every branch of the
function ends on an assignment — there is no `return` statement on any path
— so the Python function always falls off its end and returns `None`. -/
def check_enrollment_status (_context_variables : List (String × String))
    (credit_hours : Int) : Option String :=
  let _result := enrollmentStatusText credit_hours
  none

/-! ### `swarm_client.client` — agent registry -/

/-- The fixed prompt constants (`TRIAGE_INSTRUCTIONS`, …) are free natural-
language text for the LLM; no verified property depends on their content, so
each distinct prompt constant is represented by a distinct opaque tag. -/
inductive InstructionsTag where
  | triage
  | courseAdvisor
  | universityPoet
  | schedulingAssistant
deriving DecidableEq

/-- A constructed `swarm.Agent`:  `name`, `model`, `instructions`, the
`functions` list (callables identified by their Python function names, in
order), the optional `function_call_handler` (identified by name) and
`tool_choice`. -/
structure AgentDefinition where
  name : String
  model : String
  instructions : InstructionsTag
  functions : List String
  handler : Option String
  tool_choice : String
deriving DecidableEq

/-- The `handoff_functions` dict built inside `get_agent_by_name`
(key ↦ name of the local closure), in insertion order. -/
def handoff_functions : List (String × String) :=
  [ ("course_advisor", "call_course_advisor_agent"),
    ("university_poet", "call_university_poet_agent"),
    ("scheduling_assistant", "call_scheduling_assistant_agent") ]

/-- The `course_tools` list built inside `get_agent_by_name` (names of the
four local wrapper functions, in order). -/
def course_tools : List String :=
  [ "recommend_courses_func", "check_prerequisites_func",
    "compare_paths_func", "get_course_info_func" ]

/-- `create_triage_agent(handoff_functions)` from `agents/triage_agent.py`. -/
def create_triage_agent (hf : List (String × String)) : AgentDefinition :=
  { name := "Triage Agent", model := "gpt-4o", instructions := .triage,
    functions := hf.map (·.2), handler := none, tool_choice := "auto" }

/-- `create_course_advisor_agent(course_tools, handoff_tools)`. -/
def create_course_advisor_agent (tools handoffs : List String) : AgentDefinition :=
  { name := "Course Advisor Agent", model := "gpt-4o", instructions := .courseAdvisor,
    functions := tools ++ handoffs, handler := some "course_advisor_tool_handler",
    tool_choice := "auto" }

/-- `create_university_poet_agent(poet_tools, handoff_tools)`. -/
def create_university_poet_agent (tools handoffs : List String) : AgentDefinition :=
  { name := "University Poet Agent", model := "gpt-4o", instructions := .universityPoet,
    functions := tools ++ handoffs, handler := some "poet_tool_handler",
    tool_choice := "auto" }

/-- `create_scheduling_assistant_agent(schedule_tools, handoff_tools)`. -/
def create_scheduling_assistant_agent (tools handoffs : List String) : AgentDefinition :=
  { name := "Scheduling Assistant Agent", model := "gpt-4o",
    instructions := .schedulingAssistant, functions := tools ++ handoffs,
    handler := some "scheduling_tool_handler", tool_choice := "auto" }

/-- `get_agent_by_name(agent_name)`: four recognized ids; anything else
falls through to the `else` branch and yields the triage agent. -/
def get_agent_by_name (agent_name : String) : AgentDefinition :=
  if agent_name = "triage_agent" then
    create_triage_agent handoff_functions
  else if agent_name = "course_advisor_agent" then
    create_course_advisor_agent course_tools (handoff_functions.map (·.2))
  else if agent_name = "university_poet_agent" then
    create_university_poet_agent [] (handoff_functions.map (·.2))
  else if agent_name = "scheduling_assistant_agent" then
    create_scheduling_assistant_agent [] (handoff_functions.map (·.2))
  else
    create_triage_agent handoff_functions

/-- `get_agent_display_name(agent_name)`. -/
def get_agent_display_name (agent_name : String) : String :=
  if agent_name = "triage_agent" then "Triage Agent"
  else if agent_name = "course_advisor_agent" then "Course Advisor Agent"
  else if agent_name = "university_poet_agent" then "University Poet Agent"
  else if agent_name = "scheduling_assistant_agent" then "Scheduling Assistant Agent"
  else "Agent"

/-! ### `swarm_client.client.process_query` — messages, handoff detection,
orchestration -/

/-- A truthy `function_call` entry of a message dict: its `name` and
(opaque, JSON) `arguments`. -/
structure FunctionCall where
  name : String
  arguments : Option String
deriving DecidableEq

/-- One entry of a `tool_calls` list. -/
structure ToolCall where
  type : String
  fn : Option FunctionCall
deriving DecidableEq

/-- A message dict as handled by `process_query` and the views: `role`,
`content` (`none` is Python `None`), optional `name` and `function_name`
keys, an optional truthy `function_call` and a `tool_calls` list. -/
structure Msg where
  role : String
  content : Option String
  name : Option String := none
  function_name : Option String := none
  function_call : Option FunctionCall := none
  tool_calls : List ToolCall := []
deriving DecidableEq

/-- Python truthiness of a nullable string (`None` and `""` are falsy). -/
def strTruthy : Option String → Bool
  | none => false
  | some s => s ≠ ""

/-- `{"role": "user", "content": query}`. -/
def userMsg (q : String) : Msg := { role := "user", content := some q }

/-- `{"role": "assistant", "content": s}`. -/
def assistantMsg (s : String) : Msg := { role := "assistant", content := some s }

/-- The message-formatting loop of `process_query` (lines 133–158): maps
`tool` role to `function`, fills a missing `name` of a `function`-role
message from `function_name` (default `generic_function`), and keeps only
messages with truthy content, a truthy `function_call`, or truthy
`tool_calls`. -/
def filter_messages (msgs : List Msg) : List Msg :=
  msgs.foldl
    (fun acc msg =>
      let m1 := if msg.role = "tool" then { msg with role := "function" } else msg
      let m2 :=
        if m1.role = "function" ∧ m1.name = none then
          { m1 with name := some (match m1.function_name with
              | some fn => if fn = "" then "generic_function" else fn
              | none => "generic_function") }
        else m1
      if strTruthy m2.content ∨ m2.function_call.isSome ∨ m2.tool_calls ≠ [] then
        acc ++ [m2]
      else acc)
    []

/-- The natural-language poet-handoff phrases checked after the three
explicit tokens. -/
def poetPhrases : List String :=
  ["transfer to university poet", "transfer to poet", "university poet agent",
   "culture agent"]

/-- The handoff check applied to one message content (the `if/elif` chain of
lines 194–210): fixed branch priority — course advisor token, poet token,
scheduling token, then the loose poet phrases on the lower-cased content. -/
def priorityPick (c : String) : Option String :=
  if pyContains c "call_course_advisor_agent" then some "course_advisor_agent"
  else if pyContains c "call_university_poet_agent" then some "university_poet_agent"
  else if pyContains c "call_scheduling_assistant_agent" then some "scheduling_assistant_agent"
  else if poetPhrases.any (fun x => pyContains (pyLower c) x) then
    some "university_poet_agent"
  else none

/-- One iteration of the handoff-detection loop over `result.messages`:
a message with `None` content is skipped, otherwise a match overwrites the
accumulated `(new_agent, handoff_detected)` pair. -/
def detectStep (acc : String × Bool) (msg : Msg) : String × Bool :=
  match msg.content with
  | none => acc
  | some c =>
    match priorityPick c with
    | some a => (a, true)
    | none => acc

/-- The handoff-detection loop of `process_query`: starts from
`(current_agent, False)` and folds `detectStep` over the oracle output. -/
def detect_handoff (msgs : List Msg) (current : String) : String × Bool :=
  msgs.foldl detectStep (current, false)

/-- The LLM oracle `swarm_client.run(agent=…, messages=…)`: returns the
`result.messages` list or raises (`Except.error` carries `str(e)`). -/
def Oracle : Type :=
  AgentDefinition → List Msg → Except String (List Msg)

/-- `current_agent` normalization at the top of `process_query`
(`if not current_agent: current_agent = "triage_agent"`). -/
def normalizeAgent : Option String → String
  | none => "triage_agent"
  | some s => if s = "" then "triage_agent" else s

/-- The dict returned by `process_query`. -/
structure QueryResult where
  messages : List Msg
  current_agent : String
  agent_display_name : String
deriving DecidableEq

/-- The `except` branch of `process_query`: a user echo plus a single
assistant message describing the failure; the agent pointer is the local
`current_agent`, which at every raise point already holds the normalized
(hence non-empty) incoming value, so `current_agent or "triage_agent"` is
that value itself. -/
def errorResult (user_query : String) (current_agent : String) (e : String) :
    QueryResult :=
  { messages :=
      [ userMsg user_query,
        assistantMsg ("I\x27m sorry, I encountered an error: " ++ e) ],
    current_agent := current_agent,
    agent_display_name := get_agent_display_name current_agent }

/-- Content fill-in for `tool`/`function` messages with `None` content on
the no-handoff path (lines 252–261). -/
def fixToolContent (msg : Msg) : Msg :=
  if msg.role = "tool" ∨ msg.role = "function" then
    match msg.content with
    | none =>
      { msg with content := some (match msg.name with
          | some n => if n = "" then "[Function result]" else "[Results from " ++ n ++ "]"
          | none => "[Function result]") }
    | some _ => msg
  else msg

/-- The minimal context sent to the target agent after a detected handoff:
a system framing message plus the original user query. -/
def handoffMessages (new_agent : String) (q : String) : List Msg :=
  [ { role := "system",
      content := some ("You are the " ++ get_agent_display_name new_agent ++ ".") },
    userMsg q ]

/-- `process_query(user_query, session_messages, current_agent)`, paired
with the trace of oracle output messages observed during the turn (the
first call\x27s `result.messages` and, when a handoff ran, the second
call\x27s; a raised call contributes nothing). -/
def process_query_tr (run : Oracle) (user_query : String)
    (session_messages : List Msg) (current_agent : Option String) :
    QueryResult × List Msg :=
  let cur := normalizeAgent current_agent
  let filtered := filter_messages session_messages ++ [userMsg user_query]
  match run (get_agent_by_name cur) filtered with
  | Except.error e => (errorResult user_query cur e, [])
  | Except.ok result_msgs =>
    let d := detect_handoff result_msgs cur
    if d.2 then
      match run (get_agent_by_name d.1) (handoffMessages d.1 user_query) with
      | Except.error e => (errorResult user_query cur e, result_msgs)
      | Except.ok handoff_msgs =>
        ({ messages :=
             [ userMsg user_query,
               assistantMsg ("I\x27ll transfer you to the " ++
                 get_agent_display_name d.1 ++ ".") ] ++ handoff_msgs,
           current_agent := d.1,
           agent_display_name := get_agent_display_name d.1 },
         result_msgs ++ handoff_msgs)
    else
      ({ messages := userMsg user_query :: result_msgs.map fixToolContent,
         current_agent := cur,
         agent_display_name := get_agent_display_name cur },
       result_msgs)

/-- `process_query` proper (the returned dict). -/
def process_query (run : Oracle) (user_query : String)
    (session_messages : List Msg) (current_agent : Option String) : QueryResult :=
  (process_query_tr run user_query session_messages current_agent).1

/-! ### `chat_system.views` — per-turn session persistence and `clear_chat` -/

/-- A persisted `Message` row (`chat_system/models.py`): `content` is a
non-null text field; `function_arguments` is opaque JSON. -/
structure StoredRow where
  role : String
  content : String
  agent_name : Option String := none
  function_name : Option String := none
  function_arguments : Option String := none
deriving DecidableEq

/-- The row created for the incoming user query (views line 54). -/
def userRow (q : String) : StoredRow := { role := "user", content := q }

/-- Reconstruction of a Swarm-format message dict from a stored row
(views lines 61–76): a truthy `function_name` becomes a `function_call` for
assistant rows or a `name` for function rows. -/
def rowToDict (r : StoredRow) : Msg :=
  let fnTruthy := strTruthy r.function_name
  if fnTruthy ∧ r.role = "assistant" then
    { role := r.role, content := some r.content,
      function_call := some { name := (r.function_name).getD "",
                              arguments := r.function_arguments } }
  else if fnTruthy ∧ r.role = "function" then
    { role := r.role, content := some r.content, name := r.function_name }
  else
    { role := r.role, content := some r.content }

/-- Function-call info extraction when saving a message (views lines
100–111): a truthy `function_call` wins, else the first `tool_calls` entry
with `type == "function"` and a truthy `function` payload. -/
def extractFunctionInfo (m : Msg) : Option String × Option String :=
  match m.function_call with
  | some fc => (some fc.name, fc.arguments)
  | none =>
    match m.tool_calls.find? (fun tc => tc.type = "function" && tc.fn.isSome) with
    | some tc => (tc.fn.map (·.name), (tc.fn).bind (·.arguments))
    | none => (none, none)

/-- The message-saving loop of `chat_endpoint` (views lines 93–130): skips
the user echo of the current query, replaces `None` content by a
placeholder, and tags assistant rows with the display name. -/
def saveRows (q : String) (display : String) (msgs : List Msg) : List StoredRow :=
  msgs.foldl
    (fun acc m =>
      if m.role = "user" ∧ m.content = some q then acc
      else
        let fi := extractFunctionInfo m
        let content :=
          match m.content with
          | some c => c
          | none =>
            match fi.1 with
            | some n => if n = "" then "" else "[Function call: " ++ n ++ "]"
            | none => ""
        acc ++ [{ role := m.role, content := content,
                  agent_name := if m.role = "assistant" then some display else none,
                  function_name := fi.1, function_arguments := fi.2 }])
    []

/-- The durable per-session state: the stored message rows and the
persisted current-agent pointer (`UserSession.current_agent`). -/
structure SessionState where
  stored : List StoredRow
  current_agent : String

/-- One conversation turn: the query text and the LLM oracle behavior for
the turn. -/
structure Turn where
  query : String
  run : Oracle

/-- One request through `chat_endpoint` for an existing session: save the
user row, rebuild the Swarm-format history, call `process_query`, save the
returned messages, and persist the returned current-agent pointer.  Also
returns the turn\x27s oracle-output trace. -/
def chat_step_tr (t : Turn) (st : SessionState) : SessionState × List Msg :=
  let stored1 := st.stored ++ [userRow t.query]
  let pr := process_query_tr t.run t.query (stored1.map rowToDict) (some st.current_agent)
  ({ stored := stored1 ++ saveRows t.query pr.1.agent_display_name pr.1.messages,
     current_agent := pr.1.current_agent },
   pr.2)

/-- The persisted state after one `chat_endpoint` request. -/
def chat_step (t : Turn) (st : SessionState) : SessionState :=
  (chat_step_tr t st).1

/-- A whole session: the persisted state after a sequence of turns. -/
def run_session (turns : List Turn) (st : SessionState) : SessionState :=
  turns.foldl (fun s t => chat_step t s) st

/-- Whether a message content holds a handoff token or handoff phrase (the
indicators scanned by the detection loop). -/
def msgHasHandoffIndicator (m : Msg) : Bool :=
  match m.content with
  | none => false
  | some c =>
    pyContains c "call_course_advisor_agent" ||
    pyContains c "call_university_poet_agent" ||
    pyContains c "call_scheduling_assistant_agent" ||
    poetPhrases.any (fun x => pyContains (pyLower c) x)

/-- Whether a handoff token or phrase appears in any oracle output message
over a sequence of turns (evaluated along the actual session trajectory). -/
def sessionTokensAppeared : SessionState → List Turn → Bool
  | _, [] => false
  | st, t :: ts =>
    (chat_step_tr t st).2.any msgHasHandoffIndicator ||
      sessionTokensAppeared (chat_step t st) ts

/-- Whether a turn commits a handoff: the first oracle call succeeds, the
detector fires, and the follow-up oracle call for the target agent also
succeeds (only then does `process_query` return the new agent). -/
def turnCommits (t : Turn) (st : SessionState) : Bool :=
  let cur := normalizeAgent (some st.current_agent)
  let filtered :=
    filter_messages ((st.stored ++ [userRow t.query]).map rowToDict) ++ [userMsg t.query]
  match t.run (get_agent_by_name cur) filtered with
  | Except.error _ => false
  | Except.ok out =>
    let d := detect_handoff out cur
    d.2 && (match t.run (get_agent_by_name d.1) (handoffMessages d.1 t.query) with
            | Except.ok _ => true
            | Except.error _ => false)

/-- No turn of the session commits a handoff (along the actual session
trajectory). -/
def sessionCommitsNone : SessionState → List Turn → Bool
  | _, [] => true
  | st, t :: ts => !(turnCommits t st) && sessionCommitsNone (chat_step t st) ts

/-- The persisted-session store seen by `clear_chat`: sessions keyed by
session id. -/
structure SessionRec where
  messages : List StoredRow
  current_agent : String
deriving DecidableEq

/-- The response of `clear_chat`, reduced to its HTTP status and message. -/
structure ClearResponse where
  status : Nat
  body : String
deriving DecidableEq

/-- The session table (keyed association list; lookup is by primary key,
so the first hit is the session). -/
abbrev Store : Type := List (String × SessionRec)

/-- `clear_chat`: a falsy session id is a 400; an id not naming a session
(including a malformed UUID, whose `ValueError` is caught together with
`DoesNotExist`) is a 404 with the store untouched; otherwise all of the
session\x27s messages are deleted and its agent pointer reset to
`triage_agent`. -/
def clear_chat (session_id : Option String) (store : Store) :
    ClearResponse × Store :=
  match session_id with
  | none => ({ status := 400, body := "No session ID provided" }, store)
  | some sid =>
    if sid = "" then ({ status := 400, body := "No session ID provided" }, store)
    else
      match store.lookup sid with
      | some _ =>
        ({ status := 200, body := "Chat history cleared" },
         store.map (fun p =>
           if p.1 = sid then (p.1, { messages := [], current_agent := "triage_agent" })
           else p))
      | none => ({ status := 404, body := "Session not found" }, store)

/-! ### Spec-side definitions

The following definitions transcribe the *specification\x27s* wording (not
the code) and exist only to be compared against the code\x27s behavior. -/

/-- The three handoff tokens with their target agent ids. -/
def tokenTargets : List (String × String) :=
  [ ("call_course_advisor_agent", "course_advisor_agent"),
    ("call_university_poet_agent", "university_poet_agent"),
    ("call_scheduling_assistant_agent", "scheduling_assistant_agent") ]

/-- Spec-side: among the handoff tokens occurring in `c`, the target of the
one whose first occurrence is earliest in the string (no two distinct
tokens can start at the same index, as none is a prefix of another). -/
def specFirstTokenIn (c : String) : Option String :=
  (tokenTargets.filterMap
      (fun tp => (findSubIdx tp.1.data c.data).map (fun i => (i, tp.2)))
    |>.foldl
      (fun acc p =>
        match acc with
        | none => some p
        | some q => if p.1 < q.1 then some p else some q)
      none).map (·.2)

/-- Spec-side reading of the claim "the token whose first occurrence comes
earliest in scan order over the output": scan the output messages in order
and, in the first message containing any token, pick the token occurring
earliest. -/
def specScanSelect : List Msg → Option String
  | [] => none
  | m :: rest =>
    match m.content with
    | none => specScanSelect rest
    | some c =>
      match specFirstTokenIn c with
      | some tgt => some tgt
      | none => specScanSelect rest

/-- One step of `lastTrigger`: a triggering content overwrites the
accumulator. -/
def lastTriggerStep (acc : Option String) (m : Msg) : Option String :=
  match m.content with
  | none => acc
  | some c =>
    match priorityPick c with
    | some a => some a
    | none => acc

/-- Code-side characterization helper: the last message (in list order)
whose content triggers any branch of the detection chain determines the
result. -/
def lastTrigger (msgs : List Msg) : Option String :=
  msgs.foldl lastTriggerStep none

/-- The three agent ids a detection branch can produce. -/
def handoffTargets : List String :=
  ["course_advisor_agent", "university_poet_agent", "scheduling_assistant_agent"]

/-- The session record `clear_chat` leaves behind for a cleared session. -/
def clearedRec : SessionRec := { messages := [], current_agent := "triage_agent" }

/-- A concrete turn whose oracle answers the triage agent with an output
containing the course-advisor handoff token, but raises on the follow-up
call to any other agent (e.g. a rate limit hit between the two calls). -/
def c1CexTurn : Turn :=
  { query := "hi",
    run := fun agent _ =>
      if agent.name = "Triage Agent" then
        Except.ok [assistantMsg "I will transfer you now. call_course_advisor_agent()"]
      else Except.error "rate limited" }

/-- A fresh session state: no stored messages, triage agent. -/
def c1Start : SessionState := { stored := [], current_agent := "triage_agent" }

/-- A concrete benign turn: the oracle greets and no handoff marker ever
appears. -/
def c1OkTurn : Turn :=
  { query := "hello",
    run := fun _ _ => Except.ok [assistantMsg "Hello! How can I help you today?"] }

/-! ## Helper lemmas -/

/-- Characterization of the result-collection loop: it appends, to the
accumulator, the threshold-clearing pairs in index order, truncated to the
remaining capacity. -/
theorem foldl_select_eq {α : Type} [Inhabited α] (items : List α)
    (scores : List ℚ) (k : Nat) (thr : ℚ) :
    ∀ (idxs : List Nat) (acc : List (α × ℚ)),
      idxs.foldl
        (fun results idx =>
          if thr ≤ scores.getD idx 0 ∧ results.length < k then
            results ++ [(items.getD idx default, scores.getD idx 0)]
          else results)
        acc
      = acc ++
        ((idxs.filter (fun i => decide (thr ≤ scores.getD i 0))).map
          (fun i => (items.getD i default, scores.getD i 0))).take (k - acc.length)
  | [], acc => by simp
  | i :: rest, acc => by
    rw [List.foldl_cons, List.filter_cons]
    by_cases hp : thr ≤ scores.getD i 0
    · rw [if_pos (decide_eq_true hp)]
      by_cases hl : acc.length < k
      · rw [if_pos ⟨hp, hl⟩, foldl_select_eq items scores k thr rest, List.map_cons]
        have hlen : (acc ++ [(items.getD i default, scores.getD i 0)]).length
            = acc.length + 1 := by simp
        rw [hlen]
        have hk : k - acc.length = (k - (acc.length + 1)) + 1 := by omega
        rw [hk, List.take_succ_cons, List.append_assoc, List.singleton_append]
      · rw [if_neg (fun hc => hl hc.2), foldl_select_eq items scores k thr rest,
          List.map_cons]
        have h0 : k - acc.length = 0 := by omega
        rw [h0]
        have h0' : k - (acc.length + 1) = 0 := by omega
        simp [h0']
    · rw [if_neg (fun hc => hp hc.1), foldl_select_eq items scores k thr rest]
      simp only [decide_eq_false hp, Bool.false_eq_true, if_false]

/-- `simSelect` as filter-then-truncate over the descending index order. -/
theorem simSelect_eq {α : Type} [Inhabited α] (items : List α)
    (scores : List ℚ) (k : Nat) (thr : ℚ) :
    simSelect items scores k thr =
      (((argsortAsc scores).reverse.filter
          (fun i => decide (thr ≤ scores.getD i 0))).map
        (fun i => (items.getD i default, scores.getD i 0))).take k := by
  unfold simSelect
  rw [foldl_select_eq]
  simp

/-- `argsortAsc` is ascending in the scores it indexes. -/
theorem argsortAsc_sorted (scores : List ℚ) :
    (argsortAsc scores).Pairwise (fun i j => scores.getD i 0 ≤ scores.getD j 0) := by
  haveI h1 : IsTotal Nat (fun i j => scores.getD i 0 ≤ scores.getD j 0) :=
    ⟨fun a b => le_total _ _⟩
  haveI h2 : IsTrans Nat (fun i j => scores.getD i 0 ≤ scores.getD j 0) :=
    ⟨fun _ _ _ hab hbc => le_trans hab hbc⟩
  exact List.sorted_insertionSort _ _

/-- Every index produced by `argsortAsc` is in range. -/
theorem argsortAsc_mem (scores : List ℚ) :
    ∀ i ∈ argsortAsc scores, i < scores.length := by
  intro i hi
  have := (List.mem_insertionSort _ ).mp hi
  exact List.mem_range.mp this

/-- An insertion sort leaves a list unchanged when the relation holds
between every two of its elements (all-ties case). -/
theorem insertionSort_of_all {α : Type} (r : α → α → Prop) [DecidableRel r] :
    ∀ l : List α, (∀ a ∈ l, ∀ b ∈ l, r a b) → List.insertionSort r l = l
  | [], _ => rfl
  | a :: l, h => by
    show List.orderedInsert r a (List.insertionSort r l) = a :: l
    rw [insertionSort_of_all r l
      (fun x hx y hy => h x (List.mem_cons_of_mem _ hx) y (List.mem_cons_of_mem _ hy))]
    cases l with
    | nil => rfl
    | cons b m =>
      exact List.orderedInsert_of_le r _
        (h a (List.mem_cons_self a _) b (List.mem_cons_of_mem _ (List.mem_cons_self b _)))

/-- `getD` on a replicated list, in range. -/
theorem replicate_getD (s : ℚ) : ∀ (n i : Nat), i < n →
    (List.replicate n s).getD i 0 = s := by
  intro n i hi
  rw [List.getD_eq_getElem?_getD, List.getElem?_replicate, if_pos hi]
  rfl

/-- On an all-equal score list, `argsortAsc` is the identity permutation. -/
theorem argsortAsc_replicate (s : ℚ) (n : Nat) :
    argsortAsc (List.replicate n s) = List.range n := by
  unfold argsortAsc
  rw [List.length_replicate]
  apply insertionSort_of_all
  intro i hi j hj
  rw [replicate_getD s n i (List.mem_range.mp hi),
    replicate_getD s n j (List.mem_range.mp hj)]

/-- Reading a list back through `getD` over its index range. -/
theorem map_range_getD {α : Type} [Inhabited α] :
    ∀ l : List α, (List.range l.length).map (fun i => l.getD i default) = l
  | [] => rfl
  | a :: l => by
    rw [List.length_cons, List.range_succ_eq_map, List.map_cons, List.map_map]
    have h1 : (a :: l).getD 0 default = a := List.getD_cons_zero
    have h2 : ((fun i => (a :: l).getD i default) ∘ Nat.succ)
        = fun i => l.getD i default := by
      funext i
      simp [Function.comp, List.getD_cons_succ]
    rw [h1, h2, map_range_getD l]

/-- `similarity_search` on a non-empty collection in which no score clears
the threshold returns `ok []`. -/
theorem search_below_threshold_ok_empty {α : Type} [Inhabited α]
    (items : List α) (scores : List ℚ) (k : Nat) (thr : ℚ) (hne : scores ≠ [])
    (hall : ∀ s ∈ scores, s < thr) :
    similarity_search items scores k thr = Except.ok [] := by
  unfold similarity_search
  rw [if_neg (by simp [List.isEmpty_iff, hne])]
  congr 1
  rw [simSelect_eq]
  have hfil : (argsortAsc scores).reverse.filter
      (fun i => decide (thr ≤ scores.getD i 0)) = [] := by
    apply List.filter_eq_nil_iff.mpr
    intro i hi
    have hilt : i < scores.length :=
      argsortAsc_mem scores i (List.mem_reverse.mp hi)
    have hmem : scores.getD i 0 ∈ scores := by
      rw [List.getD_eq_getElem?_getD, List.getElem?_eq_getElem hilt]
      exact List.getElem_mem hilt
    simp only [decide_eq_true_eq]
    exact not_le.mpr (hall _ hmem)
  rw [hfil]
  simp

/-- A fired detection branch yields one of the three target ids. -/
theorem priorityPick_mem (c : String) (a : String)
    (h : priorityPick c = some a) : a ∈ handoffTargets := by
  unfold priorityPick at h
  split_ifs at h <;> simp_all [handoffTargets]

/-- One detection step, phrased through `lastTriggerStep`. -/
theorem detectStep_eq_match (acc : String × Bool) (m : Msg) :
    detectStep acc m =
      match lastTriggerStep none m with
      | some a => (a, true)
      | none => acc := by
  cases hc : m.content with
  | none => simp [detectStep, lastTriggerStep, hc]
  | some c =>
    cases hp : priorityPick c with
    | none => simp [detectStep, lastTriggerStep, hc, hp]
    | some a => simp [detectStep, lastTriggerStep, hc, hp]

/-- `lastTriggerStep` with an arbitrary start, through the `none` start. -/
theorem lastTriggerStep_absorb (s : Option String) (m : Msg) :
    lastTriggerStep s m =
      match lastTriggerStep none m with
      | some a => some a
      | none => s := by
  cases hc : m.content with
  | none => simp [lastTriggerStep, hc]
  | some c =>
    cases hp : priorityPick c with
    | none => simp [lastTriggerStep, hc, hp]
    | some a => simp [lastTriggerStep, hc, hp]

/-- Folding `lastTriggerStep` from an arbitrary start. -/
theorem foldl_lastTriggerStep_absorb :
    ∀ (msgs : List Msg) (s : Option String),
      msgs.foldl lastTriggerStep s =
        match msgs.foldl lastTriggerStep none with
        | some a => some a
        | none => s
  | [], s => rfl
  | m :: rest, s => by
    rw [List.foldl_cons, List.foldl_cons,
      foldl_lastTriggerStep_absorb rest (lastTriggerStep s m),
      foldl_lastTriggerStep_absorb rest (lastTriggerStep none m)]
    cases rest.foldl lastTriggerStep none with
    | some a => rfl
    | none => exact lastTriggerStep_absorb s m

/-- The detection fold, characterized by the last triggering message. -/
theorem foldl_detectStep_eq :
    ∀ (msgs : List Msg) (acc : String × Bool),
      msgs.foldl detectStep acc =
        match msgs.foldl lastTriggerStep none with
        | some a => (a, true)
        | none => acc
  | [], acc => rfl
  | m :: rest, acc => by
    rw [List.foldl_cons, List.foldl_cons,
      foldl_detectStep_eq rest (detectStep acc m),
      foldl_lastTriggerStep_absorb rest (lastTriggerStep none m)]
    cases rest.foldl lastTriggerStep none with
    | some a => rfl
    | none => exact detectStep_eq_match acc m

/-- A trigger accumulated by the `lastTriggerStep` fold is a target id. -/
theorem foldl_lastTrigger_mem :
    ∀ (msgs : List Msg) (s : Option String),
      (∀ b, s = some b → b ∈ handoffTargets) →
      ∀ a, msgs.foldl lastTriggerStep s = some a → a ∈ handoffTargets
  | [], _, hs, a, h => hs a h
  | m :: rest, s, hs, a, h => by
    rw [List.foldl_cons] at h
    refine foldl_lastTrigger_mem rest _ ?_ a h
    intro b hb
    cases hc : m.content with
    | none =>
      simp only [lastTriggerStep, hc] at hb
      exact hs b hb
    | some c =>
      cases hp : priorityPick c with
      | none =>
        simp only [lastTriggerStep, hc, hp] at hb
        exact hs b hb
      | some x =>
        simp only [lastTriggerStep, hc, hp, Option.some.injEq] at hb
        exact hb ▸ priorityPick_mem c x hp

/-- `detect_handoff` either reports no handoff (keeping the current agent)
or fires with one of the three target ids. -/
theorem detect_handoff_cases (msgs : List Msg) (cur : String) :
    detect_handoff msgs cur = (cur, false) ∨
    ∃ a ∈ handoffTargets, detect_handoff msgs cur = (a, true) := by
  unfold detect_handoff
  rw [foldl_detectStep_eq]
  cases h : msgs.foldl lastTriggerStep none with
  | none => exact Or.inl rfl
  | some a =>
    exact Or.inr ⟨a, foldl_lastTrigger_mem msgs none (by simp) a h, rfl⟩

/-- After one `chat_endpoint` turn, the persisted agent pointer is either a
handoff target (exactly when the turn commits a handoff) or the normalized
incoming pointer (exactly otherwise). -/
theorem chat_step_agent_spec (t : Turn) (st : SessionState) :
    (turnCommits t st = true ∧ (chat_step t st).current_agent ∈ handoffTargets) ∨
    (turnCommits t st = false ∧
      (chat_step t st).current_agent = normalizeAgent (some st.current_agent)) := by
  simp only [chat_step, chat_step_tr, turnCommits, process_query_tr]
  cases h1 : t.run (get_agent_by_name (normalizeAgent (some st.current_agent)))
      (filter_messages ((st.stored ++ [userRow t.query]).map rowToDict) ++
        [userMsg t.query]) with
  | error e =>
    right
    simp [errorResult]
  | ok out =>
    dsimp only
    rcases detect_handoff_cases out (normalizeAgent (some st.current_agent)) with
      hd | ⟨a, ha, hd⟩
    · right
      simp [hd]
    · rw [hd]
      cases h2 : t.run (get_agent_by_name a) (handoffMessages a t.query) with
      | error e =>
        right
        simp [errorResult]
      | ok hmsgs =>
        left
        simp [ha]

/-- The three target ids are neither the triage id nor empty. -/
theorem handoffTargets_ne (a : String) (h : a ∈ handoffTargets) :
    a ≠ "triage_agent" ∧ a ≠ "" := by
  simp only [handoffTargets, List.mem_cons, List.not_mem_nil, or_false] at h
  rcases h with rfl | rfl | rfl <;> exact ⟨by decide, by decide⟩

/-- Once the persisted pointer has left the triage agent it never returns
(handoffs only target the three specialist agents, and every failure path
preserves the pointer). -/
theorem run_session_nontriage :
    ∀ (ts : List Turn) (st : SessionState),
      st.current_agent ≠ "triage_agent" → st.current_agent ≠ "" →
      (run_session ts st).current_agent ≠ "triage_agent" ∧
      (run_session ts st).current_agent ≠ ""
  | [], _, h1, h2 => ⟨h1, h2⟩
  | t :: ts, st, h1, h2 => by
    show ((t :: ts).foldl (fun s t => chat_step t s) st).current_agent ≠ _ ∧ _
    rw [List.foldl_cons]
    rcases chat_step_agent_spec t st with ⟨_, hmem⟩ | ⟨_, heq⟩
    · obtain ⟨g1, g2⟩ := handoffTargets_ne _ hmem
      exact run_session_nontriage ts _ g1 g2
    · have hsame : (chat_step t st).current_agent = st.current_agent := by
        rw [heq]
        simp [normalizeAgent, h2]
      exact run_session_nontriage ts _ (hsame ▸ h1) (hsame ▸ h2)

/-- Starting from triage, the pointer is still triage after the session iff
no turn committed a handoff. -/
theorem run_session_triage_iff :
    ∀ (ts : List Turn) (st : SessionState),
      st.current_agent = "triage_agent" →
      ((run_session ts st).current_agent = "triage_agent" ↔
        sessionCommitsNone st ts = true)
  | [], st, h => by simp [run_session, sessionCommitsNone, h]
  | t :: ts, st, h => by
    show ((t :: ts).foldl (fun s t => chat_step t s) st).current_agent = _ ↔ _
    rw [List.foldl_cons, sessionCommitsNone]
    rcases chat_step_agent_spec t st with ⟨hc, hmem⟩ | ⟨hc, heq⟩
    · obtain ⟨g1, g2⟩ := handoffTargets_ne _ hmem
      have hne := run_session_nontriage ts _ g1 g2
      simp only [hc, Bool.not_true, Bool.false_and]
      constructor
      · intro hcontra
        exact absurd hcontra hne.1
      · intro hcontra
        cases hcontra
    · have hAgent : (chat_step t st).current_agent = "triage_agent" := by
        rw [heq, h]
        rfl
      rw [show (ts.foldl (fun s t => chat_step t s) (chat_step t st))
          = run_session ts (chat_step t st) from rfl,
        run_session_triage_iff ts _ hAgent]
      simp [hc]

/-- Looking up the cleared id after the reset map. -/
theorem lookup_clear_self (sid : String) :
    ∀ store : Store,
      (store.map (fun p => if p.1 = sid then (p.1, clearedRec) else p)).lookup sid
        = (store.lookup sid).map (fun _ => clearedRec)
  | [] => rfl
  | (k, v) :: rest => by
    simp only [List.map_cons]
    by_cases hk : k = sid
    · subst hk
      rw [if_pos rfl]
      simp [List.lookup]
    · rw [if_neg hk]
      have hne : (sid == k) = false := beq_eq_false_iff_ne.mpr (fun h => hk h.symm)
      simp [List.lookup, hne, lookup_clear_self sid rest]

/-- Looking up any other id after the reset map. -/
theorem lookup_clear_other (sid k' : String) (hk' : k' ≠ sid) :
    ∀ store : Store,
      (store.map (fun p => if p.1 = sid then (p.1, clearedRec) else p)).lookup k'
        = store.lookup k'
  | [] => rfl
  | (k, v) :: rest => by
    simp only [List.map_cons]
    by_cases hk : k = sid
    · subst hk
      rw [if_pos rfl]
      have hne : (k' == k) = false := beq_eq_false_iff_ne.mpr hk'
      simp [List.lookup, hne, lookup_clear_other k k' hk' rest]
    · rw [if_neg hk]
      by_cases hkk : k' = k
      · subst hkk
        simp [List.lookup]
      · have hne : (k' == k) = false := beq_eq_false_iff_ne.mpr hkk
        simp [List.lookup, hne, lookup_clear_other sid k' hk' rest]

/-! ## Claims -/

/-- C1 counterexample: in a session starting at triage, one turn whose
oracle output contains the `call_course_advisor_agent` token but whose
follow-up oracle call raises leaves the persisted pointer at triage even
though a handoff token appeared in an oracle output — so "pointer = triage
iff no token/phrase ever appeared" is false. -/
theorem C1_counterexample :
    ¬ (((run_session [c1CexTurn] c1Start).current_agent = "triage_agent") ↔
        sessionTokensAppeared c1Start [c1CexTurn] = false) := by decide

/-- C1 (amended): for every session starting at triage, the persisted
current-agent pointer equals triage after the turns iff no turn committed a
handoff, i.e. no turn both had a handoff token/phrase detected in its first
oracle output and completed the follow-up oracle call without raising. -/
theorem C1_triage_iff_no_committed_handoff (ts : List Turn) (st : SessionState)
    (h : st.current_agent = "triage_agent") :
    ((run_session ts st).current_agent = "triage_agent" ↔
      sessionCommitsNone st ts = true) :=
  run_session_triage_iff ts st h

/-- Witness for C1: a fresh triage session with one benign turn. -/
theorem C1_witness :
    ((run_session [c1OkTurn] c1Start).current_agent = "triage_agent" ↔
      sessionCommitsNone c1Start [c1OkTurn] = true) :=
  C1_triage_iff_no_committed_handoff [c1OkTurn] c1Start rfl

/-- C2 counterexample: an oracle output in which the poet token occurs
strictly before the course-advisor token is resolved by the detector to the
course advisor (fixed `if/elif` branch priority), not to the token whose
first occurrence comes earliest in scan order. -/
theorem C2_counterexample :
    detect_handoff
        [assistantMsg "Use call_university_poet_agent() or call_course_advisor_agent()"]
        "triage_agent"
      = ("course_advisor_agent", true) ∧
    specScanSelect
        [assistantMsg "Use call_university_poet_agent() or call_course_advisor_agent()"]
      = some "university_poet_agent" ∧
    ("course_advisor_agent" : String) ≠ "university_poet_agent" :=
  ⟨by decide, by decide, by decide⟩

/-- C2 (amended): the detector is deterministic, but its tie-break is not
earliest occurrence: within one message the fixed branch order (course
advisor token, then poet token, then scheduling token, then the loose poet
phrases) wins, and across messages the last message that triggers any
branch determines the returned target. -/
theorem C2_detection_last_trigger_fixed_priority (msgs : List Msg) (cur : String) :
    detect_handoff msgs cur =
      match lastTrigger msgs with
      | some a => (a, true)
      | none => (cur, false) := by
  unfold detect_handoff lastTrigger
  exact foldl_detectStep_eq msgs (cur, false)

/-- C3: whenever a higher-confidence tier hits — the lower-cased interest is
an exact `CAREER_PATHS` key, or else some career path matches by substring —
`recommend_courses` returns exactly the rendering of that tier, independent of
the semantic-search oracle (so no lower tier is computed or reported). -/
theorem C3_higher_tier_wins_no_fallthrough (sem : String → Int → List SemHit)
    (interest0 : String) (count : Int) (s : String)
    (h : higherTierResult interest0 count = some s) :
    recommend_courses sem interest0 count = s := by
  simp only [higherTierResult] at h
  simp only [recommend_courses]
  cases hl : CAREER_PATHS.lookup (pyLower interest0) with
  | some path =>
    simp only [hl] at h ⊢
    exact Option.some.inj h
  | none =>
    simp only [hl] at h ⊢
    cases hf : CAREER_PATHS.find? (fun p => partialMatch (pyLower interest0) p.1) with
    | some p =>
      simp only [hf] at h ⊢
      exact Option.some.inj h
    | none =>
      simp only [hf] at h
      cases h

/-- Witness for C3: the exact career-path hit "data science", with an
arbitrary (here: empty-result) semantic oracle. -/
theorem C3_witness :
    recommend_courses (fun _ _ => []) "data science" 3
      = (higherTierResult "data science" 3).getD "" :=
  C3_higher_tier_wins_no_fallthrough (fun _ _ => []) "data science" 3
    ((higherTierResult "data science" 3).getD "") (by rfl)

/-- C4: whenever `similarity_search` returns a result list, that list is
sorted by non-increasing similarity score, holds at most `top_k` entries,
and every returned score is ≥ the threshold. -/
theorem C4_search_sorted_capped_above_threshold {α : Type} [Inhabited α]
    (items : List α) (scores : List ℚ) (k : Nat) (thr : ℚ) (rs : List (α × ℚ))
    (h : similarity_search items scores k thr = Except.ok rs) :
    (rs.map Prod.snd).Pairwise (fun a b : ℚ => b ≤ a) ∧
    rs.length ≤ k ∧
    ∀ p ∈ rs, thr ≤ p.2 := by
  unfold similarity_search at h
  by_cases he : scores.isEmpty
  · rw [if_pos he] at h
    cases h
  · rw [if_neg he] at h
    have hrs : rs = simSelect items scores k thr := (Except.ok.injEq _ _).mp h.symm
    subst hrs
    rw [simSelect_eq]
    have hdesc : ((argsortAsc scores).reverse).Pairwise
        (fun i j => scores.getD j 0 ≤ scores.getD i 0) :=
      List.pairwise_reverse.mpr (argsortAsc_sorted scores)
    have hfil : ((argsortAsc scores).reverse.filter
        (fun i => decide (thr ≤ scores.getD i 0))).Pairwise
        (fun i j => scores.getD j 0 ≤ scores.getD i 0) :=
      List.Pairwise.sublist (List.filter_sublist _) hdesc
    have hmap : (((argsortAsc scores).reverse.filter
          (fun i => decide (thr ≤ scores.getD i 0))).map
        (fun i => (items.getD i default, scores.getD i 0))).Pairwise
        (fun p q : α × ℚ => q.2 ≤ p.2) :=
      List.Pairwise.map _ (fun _ _ hab => hab) hfil
    refine ⟨?_, ?_, ?_⟩
    · rw [List.map_take]
      exact List.Pairwise.sublist (List.take_sublist _ _)
        (List.Pairwise.map _ (fun _ _ hpq => hpq) hmap)
    · rw [List.length_take]
      exact min_le_left _ _
    · intro p hp
      have hp2 := List.mem_of_mem_take hp
      obtain ⟨i, hif, rfl⟩ := List.mem_map.mp hp2
      exact of_decide_eq_true (List.mem_filter.mp hif).2

/-- Witness for C4: a single item whose score exactly equals the threshold
is returned (the comparison is ≥, not >). -/
theorem C4_witness :
    (([(("x" : String), (1 : ℚ))].map Prod.snd).Pairwise
      (fun a b : ℚ => b ≤ a)) ∧
    [(("x" : String), (1 : ℚ))].length ≤ 3 ∧
    ∀ p ∈ [(("x" : String), (1 : ℚ))], (1 : ℚ) ≤ p.2 :=
  C4_search_sorted_capped_above_threshold ["x"] [(1 : ℚ)] 3 (1 : ℚ)
    [("x", (1 : ℚ))] rfl

/-- C5 counterexample: two items with exactly equal scores come back in
reverse insertion order (`argsort` ascends stably, `[::-1]` reverses), not
in original insertion order as claimed. -/
theorem C5_counterexample :
    similarity_search ["a", "b"] [(1 : ℚ), 1] 3 0
      = Except.ok [(("b" : String), (1 : ℚ)), ("a", 1)] ∧
    [(("b" : String), (1 : ℚ)), ("a", 1)] ≠ [(("a" : String), (1 : ℚ)), ("b", 1)] :=
  ⟨rfl, by decide⟩

/-- C5 (amended): when all stored vectors have exactly equal scores (and
they clear the threshold and fit in `top_k`), the tied items appear in
reverse insertion order: the numpy argsort is stable ascending on these
small arrays and the `[::-1]` reversal flips the tied run. -/
theorem C5_tied_scores_reverse_insertion_order {α : Type} [Inhabited α]
    (items : List α) (s thr : ℚ) (k : Nat) (hk : items.length ≤ k)
    (hthr : thr ≤ s) (hne : items ≠ []) :
    similarity_search items (List.replicate items.length s) k thr =
      Except.ok ((items.reverse).map (fun a => (a, s))) := by
  unfold similarity_search
  have hlen : items.length ≠ 0 := fun h0 => hne (List.length_eq_zero.mp h0)
  rw [if_neg (by simp [List.isEmpty_iff, List.replicate_eq_nil_iff, hlen])]
  congr 1
  rw [simSelect_eq, argsortAsc_replicate]
  have hfil : (List.range items.length).reverse.filter
      (fun i => decide (thr ≤ (List.replicate items.length s).getD i 0))
      = (List.range items.length).reverse := by
    apply List.filter_eq_self.mpr
    intro i hi
    rw [replicate_getD s _ i (List.mem_range.mp (List.mem_reverse.mp hi))]
    exact decide_eq_true hthr
  rw [hfil, List.map_reverse]
  have hmap : (List.range items.length).map
      (fun i => (items.getD i default, (List.replicate items.length s).getD i 0))
      = items.map (fun a => (a, s)) := by
    rw [List.map_congr_left (g := fun i => (items.getD i default, s))
      (fun i hi => by
        rw [replicate_getD s _ i (List.mem_range.mp hi)])]
    rw [show (fun i => (items.getD i default, s))
        = (fun a => (a, s)) ∘ (fun i => items.getD i default) from rfl,
      ← List.map_map, map_range_getD]
  rw [hmap, ← List.map_reverse, List.take_of_length_le (by simp [hk])]

/-- Witness for C5 (amended): two tied items, reversed. -/
theorem C5_witness :
    similarity_search ["a", "b"]
        (List.replicate (["a", "b"] : List String).length (1 : ℚ)) 2 0
      = Except.ok (((["a", "b"] : List String).reverse).map
          (fun a => (a, (1 : ℚ)))) :=
  C5_tied_scores_reverse_insertion_order ["a", "b"] 1 0 2 (by decide) (by decide)
    (by decide)

/-- C6 counterexample: on an empty collection with zero vectors, the search
raises (the sklearn `cosine_similarity` rejects an empty embedding array)
instead of returning an empty sequence. -/
theorem C6_counterexample :
    EmbeddingIndex.search (α := String) { items := [], scoresFor := fun _ => [] }
      "machine learning" 3 ((1 : ℚ)/2)
      = Except.error "ValueError: Found array with 0 sample(s) in cosine_similarity" :=
  rfl

/-- C6 (amended): for every query against a collection holding at least one
vector, when the similarity of no vector clears the threshold the search
returns an empty sequence rather than raising; the never-an-error guarantee
fails only for the zero-vector collection, where the underlying
cosine-similarity call raises. -/
theorem C6_no_match_returns_empty_on_nonempty_collection {α : Type}
    [Inhabited α] (idx : EmbeddingIndex α) (query : String) (k : Nat) (thr : ℚ)
    (hne : idx.scoresFor query ≠ [])
    (hall : ∀ s ∈ idx.scoresFor query, s < thr) :
    idx.search query k thr = Except.ok [] :=
  search_below_threshold_ok_empty idx.items (idx.scoresFor query) k thr hne hall

/-- Witness for C6 (amended): one vector, below threshold. -/
theorem C6_witness :
    EmbeddingIndex.search (α := String)
        { items := ["x"], scoresFor := fun _ => [0] } "q" 3 1 = Except.ok [] :=
  C6_no_match_returns_empty_on_nonempty_collection
    { items := ["x"], scoresFor := fun _ => [0] } "q" 3 1 (by decide) (by decide)

/-- C7: if an oracle call raises during a turn — the first call, or the
follow-up call after a detected handoff — `process_query` returns normally
with exactly the user echo plus one assistant-role message describing the
failure, and the returned current-agent pointer equals its (normalized)
value before the turn, defaulting to triage only when it was unset. -/
theorem C7_oracle_failure_single_assistant_message_agent_unchanged
    (run : Oracle) (q : String) (msgs : List Msg) (cur : Option String)
    (e : String)
    (h : run (get_agent_by_name (normalizeAgent cur))
          (filter_messages msgs ++ [userMsg q]) = Except.error e ∨
        ∃ out,
          run (get_agent_by_name (normalizeAgent cur))
            (filter_messages msgs ++ [userMsg q]) = Except.ok out ∧
          (detect_handoff out (normalizeAgent cur)).2 = true ∧
          run (get_agent_by_name (detect_handoff out (normalizeAgent cur)).1)
            (handoffMessages (detect_handoff out (normalizeAgent cur)).1 q)
            = Except.error e) :
    (process_query run q msgs cur).messages =
      [userMsg q, assistantMsg ("I\x27m sorry, I encountered an error: " ++ e)] ∧
    (process_query run q msgs cur).current_agent = normalizeAgent cur ∧
    ((process_query run q msgs cur).messages.filter
      (fun m => m.role == "assistant")).length = 1 := by
  have hres : process_query run q msgs cur
      = errorResult q (normalizeAgent cur) e := by
    simp only [process_query, process_query_tr]
    rcases h with h1 | ⟨out, h1, hdet, h2⟩
    · rw [h1]
    · rw [h1]
      dsimp only
      rw [if_pos hdet, h2]
  rw [hres]
  refine ⟨rfl, rfl, ?_⟩
  simp [errorResult, userMsg, assistantMsg, List.filter]

/-- Witness for C7: an oracle that always raises. -/
theorem C7_witness :
    (process_query (fun _ _ => Except.error "boom") "hi" []
        (some "course_advisor_agent")).messages =
      [userMsg "hi", assistantMsg ("I\x27m sorry, I encountered an error: " ++ "boom")] ∧
    (process_query (fun _ _ => Except.error "boom") "hi" []
        (some "course_advisor_agent")).current_agent
      = normalizeAgent (some "course_advisor_agent") ∧
    ((process_query (fun _ _ => Except.error "boom") "hi" []
        (some "course_advisor_agent")).messages.filter
      (fun m => m.role == "assistant")).length = 1 :=
  C7_oracle_failure_single_assistant_message_agent_unchanged
    (fun _ _ => Except.error "boom") "hi" [] (some "course_advisor_agent") "boom"
    (Or.inl rfl)

/-- C8: `get_agent_by_name` never fails — any id other than the three
specialist ids (in particular any unrecognized id) yields the fully
constructed triage agent definition. -/
theorem C8_unrecognized_agent_id_yields_triage (agent_name : String)
    (h : agent_name ∉
      ["course_advisor_agent", "university_poet_agent", "scheduling_assistant_agent"]) :
    get_agent_by_name agent_name = create_triage_agent handoff_functions := by
  simp only [List.mem_cons, List.not_mem_nil, or_false, not_or] at h
  obtain ⟨h1, h2, h3⟩ := h
  unfold get_agent_by_name
  by_cases hA : agent_name = "triage_agent"
  · rw [if_pos hA]
  · rw [if_neg hA, if_neg h1, if_neg h2, if_neg h3]

/-- Witness for C8: an id outside the closed set of known agents. -/
theorem C8_witness :
    get_agent_by_name "not_a_known_agent" = create_triage_agent handoff_functions :=
  C8_unrecognized_agent_id_yields_triage "not_a_known_agent" (by decide)

/-- C9: for a non-empty session id, `clear_chat` on an id naming no session
returns not-found (404) with the store unchanged; on an id naming a session
it succeeds (200), that session ends with no messages and its current-agent
pointer reset to triage, and every other session is untouched. -/
theorem C9_clear_session_existing_and_missing (sid : String) (store : Store)
    (h : sid ≠ "") :
    (store.lookup sid = none →
      clear_chat (some sid) store
        = ({ status := 404, body := "Session not found" }, store)) ∧
    (∀ rec, store.lookup sid = some rec →
      (clear_chat (some sid) store).1.status = 200 ∧
      (clear_chat (some sid) store).2.lookup sid = some clearedRec ∧
      ∀ k, k ≠ sid → (clear_chat (some sid) store).2.lookup k = store.lookup k) := by
  constructor
  · intro hnone
    simp only [clear_chat]
    rw [if_neg h, hnone]
  · intro rec hsome
    simp only [clear_chat]
    rw [if_neg h, hsome]
    refine ⟨rfl, ?_, ?_⟩
    · show (store.map (fun p => if p.1 = sid then (p.1, clearedRec) else p)).lookup sid
        = some clearedRec
      rw [lookup_clear_self sid store, hsome]
      rfl
    · intro k hk
      exact lookup_clear_other sid k hk store

/-- Witness for C9: clearing an existing one-session store resets it. -/
theorem C9_witness :
    (clear_chat (some "s1")
        [("s1", { messages := [userRow "hello"],
                  current_agent := "course_advisor_agent" })]).2.lookup "s1"
      = some clearedRec :=
  ((C9_clear_session_existing_and_missing "s1"
      [("s1", { messages := [userRow "hello"],
                current_agent := "course_advisor_agent" })] (by decide)).2
    { messages := [userRow "hello"], current_agent := "course_advisor_agent" }
    rfl).2.1

/-- C10: `check_enrollment_status` classifies the enrollment status and
builds the result string, but no branch of the function body contains a
`return` statement, so for every `credit_hours` input the function falls
off its end and the caller receives `None`. -/
theorem C10_check_enrollment_status_always_none :
    ∀ (ctx : List (String × String)) (credit_hours : Int),
      check_enrollment_status ctx credit_hours = none :=
  fun _ _ => rfl

end UniSupport